import Mathlib

/-!
Verification of the conversation exchange flow of `src/App.tsx`
(the `ConversationController` of the specification).

The whole protocol logic of the repository lives in the single React
component `App`: the state hooks `messages`, `inputText`, `isLoading`
(the spec's `messages`, `pendingInput`, `isWaiting`) and the async
handler `handleSendMessage` (src/App.tsx lines 87-129), invoked from the
send button `TouchableOpacity ... onPress={handleSendMessage}
disabled={isLoading}` (line 206).

The embedding below is a direct shallow translation:
  * `Message`, `AppState`, `Request` mirror the TypeScript shapes.
    A JS value that may be `undefined` (the `answer` field of a parsed
    response body when absent or not a string) is modelled as
    `Option String`, `none` standing for `undefined`.
  * `Date.now()` samples are passed in explicitly: `tSend` is the value
    of `Date.now()` during the synchronous part of `handleSendMessage`,
    `tDone` the value at the point where the bot message is built.
  * The outcome of the `fetch` call (together with the subsequent
    `response.text()` / `response.json()` reads) is the environment's
    choice, modelled by the inductive `FetchOutcome`.
  * `handleSendMessageSync` is the synchronous prefix of the handler
    (everything before the first `await`); `exchangeComplete` is the
    rest (the `try`/`catch`/`finally` continuation).  Their composition
    `handleSendMessage` also returns the request body sent to the
    backend (`none` when no network call was issued).
  * `pressSend` is the send-button action: React Native does not fire
    `onPress` of a disabled `TouchableOpacity`, so the handler runs only
    when `isLoading` is false (line 206).
  * Traces: the only events able to touch the controller state are
    typing into the `TextInput` (`onChangeText={setInputText}`) and
    pressing send.  Presses are serialized by the `disabled` gate and a
    completion touches only `messages`/`isLoading`, never `inputText`,
    so a press event can soundly bundle the full exchange.
-/

namespace ChatApp

/-- The `sender` enum of the `Message` interface (src/App.tsx lines 60-64). -/
inductive Sender where
  | user
  | bot
deriving DecidableEq, Repr

/-- The `Message` interface: `{ id: string; text: string; sender: 'user' | 'bot' }`.
`text` is `Option String` because on a success response the code stores
`data.answer` unchecked, which is JS `undefined` (here `none`) when the
parsed body has no string `answer` field. -/
structure Message where
  id : String
  text : Option String
  sender : Sender
deriving DecidableEq, Repr

/-- The controller state: the `messages` (newest first), `inputText` and
`isLoading` React state hooks (src/App.tsx lines 82-84). -/
structure AppState where
  messages : List Message
  inputText : String
  isLoading : Bool
deriving DecidableEq, Repr

/-- The JSON body `{ question, history }` posted to the backend
(src/App.tsx lines 106-109). -/
structure Request where
  question : String
  history : List Message
deriving DecidableEq, Repr

/-- Environment-chosen outcome of the transport call in one exchange.
`netError msg` : `fetch` itself rejects, with error message `msg`.
`reply ok status bodyText answerField` : a response arrives with
`response.ok = ok`, `response.status = status`; `bodyText` is what
`response.text()` would read; `answerField` is the outcome of
`response.json()` followed by reading `.answer` — `Except.error m` when
the body is not valid JSON (the parse rejects with message `m`),
`Except.ok a` when it parses, `a` being its `answer` field
(`none` for absent or non-string, i.e. JS `undefined`). -/
inductive FetchOutcome where
  | netError (msg : String)
  | reply (ok : Bool) (status : Nat) (bodyText : String) (answerField : Except String (Option String))
deriving Repr

/-- Model of JS `String.prototype.trim` on the character list: drop
whitespace from both ends.  (JS trims the Unicode whitespace class; the
model uses `Char.isWhitespace`, which covers the characters the claims
exercise: space, tab, CR, LF.) -/
def trimChars (l : List Char) : List Char :=
  ((l.dropWhile Char.isWhitespace).reverse.dropWhile Char.isWhitespace).reverse

/-- Model of `inputText.trim()` (src/App.tsx line 88). -/
def jsTrim (s : String) : String :=
  (trimChars s.data).asString

/-- Synchronous prefix of `handleSendMessage` (src/App.tsx lines 88-109):
trim and falsy-check the input, build the user message with id
`Date.now().toString()`, prepend it, clear the input, raise the loading
flag, and capture the request body built from `trimmedText` and
`[...currentMessages].reverse()` where `currentMessages` is the message
list from before the prepend.  Returns `none` for the request when the
handler returned early (empty trimmed input). -/
def handleSendMessageSync (st : AppState) (tSend : Nat) : AppState × Option Request :=
  let trimmedText := jsTrim st.inputText
  if trimmedText = "" then (st, none)
  else
    let userMessage : Message := { id := toString tSend, text := some trimmedText, sender := .user }
    let currentMessages := st.messages
    ({ messages := userMessage :: st.messages, inputText := "", isLoading := true },
     some { question := trimmedText, history := currentMessages.reverse })

/-- The error text template `Falha na comunicação: ${e.message}`
(src/App.tsx line 123). -/
def commFailureText (msg : String) : String :=
  "Falha na comunicação: " ++ msg

/-- The message of the error thrown on a non-ok response:
`Erro do Servidor: ${response.status} - ${errorData}` (src/App.tsx line 114). -/
def serverErrorMessage (status : Nat) (bodyText : String) : String :=
  "Erro do Servidor: " ++ toString status ++ " - " ++ bodyText

/-- The single bot message an exchange resolves to, for every possible
outcome (src/App.tsx lines 112-125).  Its id is
`(Date.now() + 1).toString()` in every branch; `tDone` is that
`Date.now()` sample.
  * non-ok response: the thrown `Erro do Servidor` error is caught and
    wrapped by the `catch` into a `Falha na comunicação` bot message;
  * ok response, body parses: `text = data.answer` taken unchecked;
  * ok response, body does not parse: `response.json()` rejects and the
    same `catch` wraps the parse error;
  * transport error: the `catch` wraps `e.message`. -/
def botReply (outcome : FetchOutcome) (tDone : Nat) : Message :=
  match outcome with
  | .netError msg =>
      { id := toString (tDone + 1), text := some (commFailureText msg), sender := .bot }
  | .reply ok status bodyText answerField =>
      if ok then
        match answerField with
        | .ok ans =>
            { id := toString (tDone + 1), text := ans, sender := .bot }
        | .error parseMsg =>
            { id := toString (tDone + 1), text := some (commFailureText parseMsg), sender := .bot }
      else
        { id := toString (tDone + 1),
          text := some (commFailureText (serverErrorMessage status bodyText)),
          sender := .bot }

/-- The continuation of `handleSendMessage` after the transport call
resolves (src/App.tsx lines 112-128): every path of the
`try`/`catch` prepends exactly one bot message, and the `finally` clears
the loading flag. -/
def exchangeComplete (st : AppState) (outcome : FetchOutcome) (tDone : Nat) : AppState :=
  { st with messages := botReply outcome tDone :: st.messages, isLoading := false }

/-- The whole `handleSendMessage` handler (src/App.tsx lines 87-129) as a
function of the pre-state, the two clock samples and the environment's
outcome; the second component is the request body posted to
`BACKEND_URL`, `none` when no network call happened. -/
def handleSendMessage (st : AppState) (tSend : Nat) (outcome : FetchOutcome) (tDone : Nat) :
    AppState × Option Request :=
  match handleSendMessageSync st tSend with
  | (st1, none) => (st1, none)
  | (st1, some req) => (exchangeComplete st1 outcome tDone, some req)

/-- The send-button action (src/App.tsx line 206):
`onPress={handleSendMessage} disabled={isLoading}` — a disabled
`TouchableOpacity` does not fire `onPress`, so the handler only runs when
`isLoading` is false. -/
def pressSend (st : AppState) (tSend : Nat) (outcome : FetchOutcome) (tDone : Nat) :
    AppState × Option Request :=
  if st.isLoading then (st, none)
  else handleSendMessage st tSend outcome tDone

/-- The user-interface events that can touch the controller state:
typing into the bound `TextInput` (`onChangeText={setInputText}`,
src/App.tsx line 203) and pressing the send button. -/
inductive Event where
  | type (s : String)
  | press (tSend : Nat) (outcome : FetchOutcome) (tDone : Nat)
deriving Repr

/-- One event's effect on the state. -/
def step (st : AppState) : Event → AppState
  | .type s => { st with inputText := s }
  | .press tSend outcome tDone => (pressSend st tSend outcome tDone).1

/-- Folding a list of events over a state. -/
def run (st : AppState) : List Event → AppState
  | [] => st
  | ev :: evs => run (step st ev) evs

/-- The initial state of a session: empty log, empty input, not loading
(src/App.tsx lines 82-84). -/
def initState : AppState := { messages := [], inputText := "", isLoading := false }

/-- Clock realizability of a trace: `Date.now()` is non-decreasing, so
along a trace the samples `tSend ≤ tDone` of each press start no earlier
than the previous press's last sample.  `last` is the latest sample seen
so far. -/
def clockMono : Nat → List Event → Bool
  | _, [] => true
  | last, .type _ :: evs => clockMono last evs
  | last, .press t _ u :: evs => (last ≤ t && t ≤ u) && clockMono u evs

/-- A spaced clock: each press starts at least 2 ticks after the previous
press's completion sample, so the time-based ids of distinct exchanges
cannot collide.  `lo` is the least admissible next `tSend`. -/
def clockSpaced : Nat → List Event → Bool
  | _, [] => true
  | lo, .type _ :: evs => clockSpaced lo evs
  | lo, .press t _ u :: evs => (lo ≤ t && t ≤ u) && clockSpaced (u + 2) evs

/-- The string `pat` occurs contiguously inside `s`. -/
def strContains (s pat : String) : Prop :=
  ∃ l r, s.data = l ++ pat.data ++ r

/-- The string `s` begins with `pat`. -/
def strStarts (s pat : String) : Prop :=
  ∃ r, s.data = pat.data ++ r

/-- Numeric value of a decimal digit character. -/
def digitVal (c : Char) : Nat :=
  c.toNat - 48

/-- Numeric value of a decimal digit string, most significant digit first. -/
def digitsVal (l : List Char) : Nat :=
  l.foldl (fun a c => 10 * a + digitVal c) 0

/-- Invariant backing the id-uniqueness analysis: the ids in `msgs`
(newest first) are the decimal strings of a strictly descending list of
clock values, all below `lo`. -/
def IdsBelow (lo : Nat) (msgs : List Message) : Prop :=
  ∃ l : List Nat, msgs.map (fun m => m.id) = l.map (fun k => toString k) ∧
    l.Pairwise (fun a b => b < a) ∧ ∀ k ∈ l, k < lo

/-- Sample state: fresh session with `Hello` typed into the input. -/
def stHello : AppState := { messages := [], inputText := "Hello", isLoading := false }

/-- Sample state: input with surrounding whitespace. -/
def stPadded : AppState := { messages := [], inputText := "  Olá?  ", isLoading := false }

/-- Sample state: whitespace-only input. -/
def stBlank : AppState := { messages := [], inputText := " \t ", isLoading := false }

/-- Sample state: an exchange is in flight. -/
def stBusy : AppState := { messages := [], inputText := "Hi", isLoading := true }

/-- Sample first-turn user message. -/
def msgA : Message := { id := "100", text := some "Hello", sender := Sender.user }

/-- Sample first-turn bot message. -/
def msgB : Message := { id := "101", text := some "Hi", sender := Sender.bot }

/-- Sample state before the second user turn: one completed exchange
(newest first) and a padded second utterance pending. -/
def stTwo : AppState := { messages := [msgB, msgA], inputText := " next Q ", isLoading := false }

/-! Helper lemmas. -/

theorem toDigitsCore_acc (f : Nat) : ∀ (n : Nat) (acc : List Char),
    Nat.toDigitsCore 10 f n acc = Nat.toDigitsCore 10 f n [] ++ acc := by
  induction f with
  | zero => intro n acc; simp [Nat.toDigitsCore]
  | succ f ih =>
    intro n acc
    simp only [Nat.toDigitsCore]
    by_cases h : n / 10 = 0
    · simp [h]
    · simp only [h, if_neg, ite_false]
      rw [ih (n / 10) (Nat.digitChar (n % 10) :: acc), ih (n / 10) [Nat.digitChar (n % 10)]]
      simp

theorem digitVal_digitChar : ∀ m, m < 10 → digitVal (Nat.digitChar m) = m := by decide

theorem digitsVal_snoc (l : List Char) (c : Char) :
    digitsVal (l ++ [c]) = 10 * digitsVal l + digitVal c := by
  simp [digitsVal, List.foldl_append]

theorem digitsVal_toDigitsCore : ∀ (f n : Nat), n < 10 ^ f →
    digitsVal (Nat.toDigitsCore 10 f n []) = n := by
  intro f
  induction f with
  | zero =>
    intro n h
    simp only [pow_zero, Nat.lt_one_iff] at h
    subst h
    simp [Nat.toDigitsCore, digitsVal]
  | succ f ih =>
    intro n h
    simp only [Nat.toDigitsCore]
    by_cases h0 : n / 10 = 0
    · have hn : n < 10 := by omega
      have : n % 10 = n := Nat.mod_eq_of_lt hn
      simp [h0, digitsVal, this, digitVal_digitChar n hn]
    · simp only [h0, if_neg, ite_false]
      rw [toDigitsCore_acc, digitsVal_snoc]
      have h1 : n / 10 < 10 ^ f := by
        apply Nat.div_lt_of_lt_mul
        rw [mul_comm, ← pow_succ]
        exact h
      rw [ih (n / 10) h1, digitVal_digitChar (n % 10) (Nat.mod_lt n (by norm_num))]
      omega

theorem digitsVal_repr (n : Nat) : digitsVal (Nat.repr n).data = n := by
  have h : n < 10 ^ (n + 1) :=
    lt_of_lt_of_le (Nat.lt_pow_self (by norm_num) n)
      (Nat.pow_le_pow_right (by norm_num) (Nat.le_succ n))
  exact digitsVal_toDigitsCore (n + 1) n h

theorem natToString_injective : Function.Injective (fun n : Nat => toString n) := by
  intro m n h
  have hm := digitsVal_repr m
  have hn := digitsVal_repr n
  simp only at h
  rw [show toString m = Nat.repr m from rfl, show toString n = Nat.repr n from rfl] at h
  rw [← hm, ← hn, h]

theorem botReply_id (o : FetchOutcome) (u : Nat) : (botReply o u).id = toString (u + 1) := by
  cases o with
  | netError msg => rfl
  | reply ok status bodyText answerField => cases ok <;> cases answerField <;> rfl

theorem botReply_sender (o : FetchOutcome) (u : Nat) : (botReply o u).sender = Sender.bot := by
  cases o with
  | netError msg => rfl
  | reply ok status bodyText answerField => cases ok <;> cases answerField <;> rfl

theorem handleSendMessage_blank (st : AppState) (tSend tDone : Nat) (o : FetchOutcome)
    (h : jsTrim st.inputText = "") :
    handleSendMessage st tSend o tDone = (st, none) := by
  simp [handleSendMessage, handleSendMessageSync, h]

theorem handleSendMessage_go (st : AppState) (tSend tDone : Nat) (o : FetchOutcome)
    (h : ¬ jsTrim st.inputText = "") :
    handleSendMessage st tSend o tDone =
      ({ messages := botReply o tDone ::
            { id := toString tSend, text := some (jsTrim st.inputText), sender := Sender.user } ::
            st.messages,
         inputText := "", isLoading := false },
       some { question := jsTrim st.inputText, history := st.messages.reverse }) := by
  simp [handleSendMessage, handleSendMessageSync, h, exchangeComplete]

theorem IdsBelow_press (lo t u : Nat) (o : FetchOutcome) (st : AppState)
    (hlo : lo ≤ t) (htu : t ≤ u) (h : IdsBelow lo st.messages) :
    IdsBelow (u + 2) (step st (Event.press t o u)).messages := by
  obtain ⟨l, hmap, hpw, hbound⟩ := h
  have hbound2 : ∀ k ∈ l, k < u + 2 := fun k hk => by have := hbound k hk; omega
  by_cases hload : st.isLoading = true
  · exact ⟨l, by simp [step, pressSend, hload, hmap], hpw, hbound2⟩
  · have hload' : st.isLoading = false := by simp at hload; exact hload
    by_cases htrim : jsTrim st.inputText = ""
    · refine ⟨l, ?_, hpw, hbound2⟩
      simp [step, pressSend, hload', handleSendMessage_blank st t u o htrim, hmap]
    · refine ⟨(u + 1) :: t :: l, ?_, ?_, ?_⟩
      · simp [step, pressSend, hload', handleSendMessage_go st t u o htrim, botReply_id, hmap]
      · refine List.Pairwise.cons ?_ (List.Pairwise.cons ?_ hpw)
        · intro b hb
          rcases List.mem_cons.mp hb with hb | hb
          · omega
          · have := hbound b hb; omega
        · intro b hb
          have := hbound b hb; omega
      · intro k hk
        rcases List.mem_cons.mp hk with hk | hk
        · omega
        · rcases List.mem_cons.mp hk with hk | hk
          · omega
          · exact hbound2 k hk

theorem IdsBelow_run : ∀ (evs : List Event) (st : AppState) (lo : Nat),
    clockSpaced lo evs = true → IdsBelow lo st.messages →
    ∃ hi, IdsBelow hi (run st evs).messages := by
  intro evs
  induction evs with
  | nil => intro st lo _ h; exact ⟨lo, h⟩
  | cons ev evs ih =>
    intro st lo hclock h
    cases ev with
    | type s =>
      simp only [clockSpaced] at hclock
      refine ih _ lo hclock ?_
      obtain ⟨l, hmap, hpw, hbound⟩ := h
      exact ⟨l, by simp [step, hmap], hpw, hbound⟩
    | press t o u =>
      simp only [clockSpaced, Bool.and_eq_true, decide_eq_true_eq] at hclock
      obtain ⟨⟨h1, h2⟩, h3⟩ := hclock
      exact ih _ (u + 2) h3 (IdsBelow_press lo t u o st h1 h2 h)

/-! The claims. -/

/-- C1: for every submitted non-empty trimmed utterance and every possible
transport outcome (success, non-success status, unparsable body, or
transport failure), the exchange resolves without escaping the handler:
`isLoading` is back to `false`, exactly one bot message has been prepended
to the post-submit message list, and the total message count has grown by
exactly 2 over the pre-submit state. -/
theorem c1_exchange_always_resolves (st : AppState) (tSend : Nat) (o : FetchOutcome) (tDone : Nat)
    (h : jsTrim st.inputText ≠ "") :
    (handleSendMessage st tSend o tDone).1.isLoading = false ∧
    (∃ b : Message, b.sender = Sender.bot ∧
      (handleSendMessage st tSend o tDone).1.messages =
        b :: (handleSendMessageSync st tSend).1.messages) ∧
    (handleSendMessage st tSend o tDone).1.messages.length = st.messages.length + 2 := by
  rw [handleSendMessage_go st tSend tDone o h]
  refine ⟨rfl, ⟨botReply o tDone, botReply_sender o tDone, ?_⟩, by simp⟩
  simp [handleSendMessageSync, h]

/-- C1 witness: concrete padded input, transport error outcome. -/
theorem c1_witness :
    (handleSendMessage stPadded 0 (FetchOutcome.netError "boom") 3).1.isLoading = false ∧
    (∃ b : Message, b.sender = Sender.bot ∧
      (handleSendMessage stPadded 0 (FetchOutcome.netError "boom") 3).1.messages =
        b :: (handleSendMessageSync stPadded 0).1.messages) ∧
    (handleSendMessage stPadded 0 (FetchOutcome.netError "boom") 3).1.messages.length =
      stPadded.messages.length + 2 :=
  c1_exchange_always_resolves stPadded 0 (FetchOutcome.netError "boom") 3 (by decide)

/-- C2: for every input whose trimmed form is non-empty, the synchronous
prefix of the handler (everything before the network call) prepends
exactly one user message carrying the trimmed text, clears the pending
input and raises the loading flag. -/
theorem c2_submit_sync_effect (st : AppState) (tSend : Nat)
    (h : jsTrim st.inputText ≠ "") :
    (handleSendMessageSync st tSend).1.messages =
      { id := toString tSend, text := some (jsTrim st.inputText), sender := Sender.user }
        :: st.messages ∧
    (handleSendMessageSync st tSend).1.inputText = "" ∧
    (handleSendMessageSync st tSend).1.isLoading = true := by
  simp [handleSendMessageSync, h]

/-- C2 witness: concrete padded input. -/
theorem c2_witness :
    (handleSendMessageSync stPadded 5).1.messages =
      { id := toString 5, text := some (jsTrim stPadded.inputText), sender := Sender.user }
        :: stPadded.messages ∧
    (handleSendMessageSync stPadded 5).1.inputText = "" ∧
    (handleSendMessageSync stPadded 5).1.isLoading = true :=
  c2_submit_sync_effect stPadded 5 (by decide)

/-- C3: the request body sent to the backend carries the trimmed utterance
as `question`, and as `history` the message list exactly as it stood
before the submission, reversed into chronological (oldest-first) order —
the new user message is not part of it. -/
theorem c3_request_history (st : AppState) (tSend : Nat) (o : FetchOutcome) (tDone : Nat)
    (h : jsTrim st.inputText ≠ "") :
    (handleSendMessage st tSend o tDone).2 =
      some { question := jsTrim st.inputText, history := st.messages.reverse } := by
  rw [handleSendMessage_go st tSend tDone o h]

/-- C3 witness: second user turn after one completed exchange; the history
sent is the prior conversation oldest first, without the new utterance. -/
theorem c3_witness :
    (handleSendMessage stTwo 200 (FetchOutcome.netError "x") 201).2 =
      some { question := jsTrim stTwo.inputText, history := stTwo.messages.reverse } ∧
    stTwo.messages.reverse = [msgA, msgB] ∧ jsTrim stTwo.inputText = "next Q" :=
  ⟨c3_request_history stTwo 200 (FetchOutcome.netError "x") 201 (by decide),
   by decide, by decide⟩

/-- C4: pressing send while an exchange is in flight is a no-op — the
send button is disabled while `isLoading` is true, so the handler does not
run: the state is unchanged and no request is issued. -/
theorem c4_press_while_waiting_noop (st : AppState) (tSend : Nat) (o : FetchOutcome) (tDone : Nat)
    (h : st.isLoading = true) :
    pressSend st tSend o tDone = (st, none) := by
  simp [pressSend, h]

/-- C4 witness: concrete busy state. -/
theorem c4_witness :
    pressSend stBusy 1 (FetchOutcome.netError "n") 2 = (stBusy, none) :=
  c4_press_while_waiting_noop stBusy 1 (FetchOutcome.netError "n") 2 (by decide)

/-- C5: submitting an input whose trimmed form is empty is a no-op —
state unchanged, no request issued. -/
theorem c5_blank_input_noop (st : AppState) (tSend : Nat) (o : FetchOutcome) (tDone : Nat)
    (h : jsTrim st.inputText = "") :
    pressSend st tSend o tDone = (st, none) := by
  by_cases hl : st.isLoading = true
  · simp [pressSend, hl]
  · have hl' : st.isLoading = false := by simp at hl; exact hl
    simp [pressSend, hl', handleSendMessage_blank st tSend tDone o h]

/-- C5 witness: concrete whitespace-only input. -/
theorem c5_witness :
    pressSend stBlank 1 (FetchOutcome.netError "n") 2 = (stBlank, none) :=
  c5_blank_input_noop stBlank 1 (FetchOutcome.netError "n") 2 (by decide)

/-- C6: on a success status with a body whose `answer` field is the
string `ans`, the exchange prepends exactly one bot message with text
`ans` over the user message carrying the trimmed input, and the flag is
lowered. -/
theorem c6_success_prepends_answer (st : AppState) (tSend tDone status : Nat)
    (bodyText ans : String) (h : jsTrim st.inputText ≠ "") :
    ∃ mb mu : Message,
      mb.sender = Sender.bot ∧ mb.text = some ans ∧
      mu.sender = Sender.user ∧ mu.text = some (jsTrim st.inputText) ∧
      (handleSendMessage st tSend
        (FetchOutcome.reply true status bodyText (Except.ok (some ans))) tDone).1.messages =
        mb :: mu :: st.messages ∧
      (handleSendMessage st tSend
        (FetchOutcome.reply true status bodyText (Except.ok (some ans))) tDone).1.isLoading
        = false := by
  rw [handleSendMessage_go st tSend tDone _ h]
  exact ⟨botReply (FetchOutcome.reply true status bodyText (Except.ok (some ans))) tDone,
    { id := toString tSend, text := some (jsTrim st.inputText), sender := Sender.user },
    botReply_sender _ _, rfl, rfl, rfl, rfl, rfl⟩

/-- C6 witness: the spec's example — input `Hello`, answer `Hi`; the final
newest-first list is bot `Hi` then user `Hello`. -/
theorem c6_witness :
    (∃ mb mu : Message,
      mb.sender = Sender.bot ∧ mb.text = some "Hi" ∧
      mu.sender = Sender.user ∧ mu.text = some (jsTrim stHello.inputText) ∧
      (handleSendMessage stHello 0
        (FetchOutcome.reply true 200 "" (Except.ok (some "Hi"))) 1).1.messages =
        mb :: mu :: stHello.messages ∧
      (handleSendMessage stHello 0
        (FetchOutcome.reply true 200 "" (Except.ok (some "Hi"))) 1).1.isLoading = false) ∧
    (handleSendMessage stHello 0
        (FetchOutcome.reply true 200 "" (Except.ok (some "Hi"))) 1).1.messages =
      [{ id := "2", text := some "Hi", sender := Sender.bot },
       { id := "0", text := some "Hello", sender := Sender.user }] :=
  ⟨c6_success_prepends_answer stHello 0 1 200 "" "Hi" (by decide), by decide⟩

/-- C7: on a non-success status the exchange prepends exactly one bot
message whose text contains both the decimal status code and the response
body text, and no failure escapes — the handler resolves with the flag
lowered. -/
theorem c7_server_error_surfaced (st : AppState) (tSend tDone status : Nat)
    (bodyText : String) (j : Except String (Option String))
    (h : jsTrim st.inputText ≠ "") :
    (handleSendMessage st tSend (FetchOutcome.reply false status bodyText j) tDone).1.isLoading
      = false ∧
    ∃ m : Message, ∃ txt : String, m.sender = Sender.bot ∧ m.text = some txt ∧
      (handleSendMessage st tSend (FetchOutcome.reply false status bodyText j) tDone).1.messages
        = m :: (handleSendMessageSync st tSend).1.messages ∧
      strContains txt (toString status) ∧ strContains txt bodyText := by
  rw [handleSendMessage_go st tSend tDone _ h]
  refine ⟨rfl, botReply (FetchOutcome.reply false status bodyText j) tDone,
    commFailureText (serverErrorMessage status bodyText),
    botReply_sender _ _, rfl, ?_, ?_, ?_⟩
  · simp [handleSendMessageSync, h]
  · exact ⟨("Falha na comunicação: " ++ "Erro do Servidor: ").data, (" - " ++ bodyText).data,
      by simp [commFailureText, serverErrorMessage, String.data_append, List.append_assoc]⟩
  · exact ⟨("Falha na comunicação: " ++ ("Erro do Servidor: " ++ toString status ++ " - ")).data,
      [],
      by simp [commFailureText, serverErrorMessage, String.data_append, List.append_assoc]⟩

/-- C7 witness: the spec's example — HTTP 500 with body `oops`. -/
theorem c7_witness :
    (handleSendMessage stHello 0 (FetchOutcome.reply false 500 "oops" (Except.ok none)) 1).1.isLoading
      = false ∧
    ∃ m : Message, ∃ txt : String, m.sender = Sender.bot ∧ m.text = some txt ∧
      (handleSendMessage stHello 0 (FetchOutcome.reply false 500 "oops" (Except.ok none)) 1).1.messages
        = m :: (handleSendMessageSync stHello 0).1.messages ∧
      strContains txt (toString 500) ∧ strContains txt "oops" :=
  c7_server_error_surfaced stHello 0 1 500 "oops" (Except.ok none) (by decide)

/-- C8: on a transport-level failure the exchange prepends exactly one bot
message whose text starts with the communication-failure marker
`Falha na comunicação: ` and contains the underlying error description,
and the error is not propagated — the handler resolves with the flag
lowered. -/
theorem c8_transport_error_surfaced (st : AppState) (tSend tDone : Nat) (emsg : String)
    (h : jsTrim st.inputText ≠ "") :
    (handleSendMessage st tSend (FetchOutcome.netError emsg) tDone).1.isLoading = false ∧
    ∃ m : Message, m.sender = Sender.bot ∧ m.text = some (commFailureText emsg) ∧
      (handleSendMessage st tSend (FetchOutcome.netError emsg) tDone).1.messages
        = m :: (handleSendMessageSync st tSend).1.messages ∧
      strStarts (commFailureText emsg) "Falha na comunicação: " ∧
      strContains (commFailureText emsg) emsg := by
  rw [handleSendMessage_go st tSend tDone _ h]
  refine ⟨rfl, botReply (FetchOutcome.netError emsg) tDone, botReply_sender _ _, rfl, ?_, ?_, ?_⟩
  · simp [handleSendMessageSync, h]
  · exact ⟨emsg.data, by simp [commFailureText, String.data_append]⟩
  · exact ⟨"Falha na comunicação: ".data, [], by simp [commFailureText, String.data_append]⟩

/-- C8 witness: concrete connection error. -/
theorem c8_witness :
    (handleSendMessage stHello 2 (FetchOutcome.netError "Network request failed") 3).1.isLoading
      = false ∧
    ∃ m : Message, m.sender = Sender.bot ∧
      m.text = some (commFailureText "Network request failed") ∧
      (handleSendMessage stHello 2 (FetchOutcome.netError "Network request failed") 3).1.messages
        = m :: (handleSendMessageSync stHello 2).1.messages ∧
      strStarts (commFailureText "Network request failed") "Falha na comunicação: " ∧
      strContains (commFailureText "Network request failed") "Network request failed" :=
  c8_transport_error_surfaced stHello 2 3 "Network request failed" (by decide)

/-- C10: a success status whose body fails to parse as JSON lands in the
same failure path as a transport error: the synthesized bot message is
literally the one a transport error with the parse error's message would
produce, carrying the communication-failure marker and the parse error
description, and the handler resolves with the flag lowered. -/
theorem c10_parse_error_like_transport (st : AppState) (tSend tDone status : Nat)
    (bodyText pmsg : String) (h : jsTrim st.inputText ≠ "") :
    botReply (FetchOutcome.reply true status bodyText (Except.error pmsg)) tDone
      = botReply (FetchOutcome.netError pmsg) tDone ∧
    (handleSendMessage st tSend
      (FetchOutcome.reply true status bodyText (Except.error pmsg)) tDone).1.isLoading = false ∧
    ∃ m : Message, m.sender = Sender.bot ∧ m.text = some (commFailureText pmsg) ∧
      (handleSendMessage st tSend
        (FetchOutcome.reply true status bodyText (Except.error pmsg)) tDone).1.messages
        = m :: (handleSendMessageSync st tSend).1.messages ∧
      strStarts (commFailureText pmsg) "Falha na comunicação: " ∧
      strContains (commFailureText pmsg) pmsg := by
  rw [handleSendMessage_go st tSend tDone _ h]
  refine ⟨rfl, rfl,
    botReply (FetchOutcome.reply true status bodyText (Except.error pmsg)) tDone,
    botReply_sender _ _, rfl, ?_, ?_, ?_⟩
  · simp [handleSendMessageSync, h]
  · exact ⟨pmsg.data, by simp [commFailureText, String.data_append]⟩
  · exact ⟨"Falha na comunicação: ".data, [], by simp [commFailureText, String.data_append]⟩

/-- C10 witness: concrete unparsable success body. -/
theorem c10_witness :
    botReply (FetchOutcome.reply true 200 "<html>" (Except.error "Unexpected token <")) 6
      = botReply (FetchOutcome.netError "Unexpected token <") 6 ∧
    (handleSendMessage stHello 4
      (FetchOutcome.reply true 200 "<html>" (Except.error "Unexpected token <")) 6).1.isLoading
      = false ∧
    ∃ m : Message, m.sender = Sender.bot ∧
      m.text = some (commFailureText "Unexpected token <") ∧
      (handleSendMessage stHello 4
        (FetchOutcome.reply true 200 "<html>" (Except.error "Unexpected token <")) 6).1.messages
        = m :: (handleSendMessageSync stHello 4).1.messages ∧
      strStarts (commFailureText "Unexpected token <") "Falha na comunicação: " ∧
      strContains (commFailureText "Unexpected token <") "Unexpected token <" :=
  c10_parse_error_like_transport stHello 4 6 200 "<html>" "Unexpected token <" (by decide)

/-- C9 counterexample: the claim that every reachable state has pairwise
distinct message ids is false.  The trace is clock-realizable
(`Date.now()` samples are non-decreasing: they are all the same
millisecond tick, which a fast-failing exchange permits), yet the
time-based ids collide: the two exchanges produce ids `1, 0, 1, 0`. -/
theorem c9_counterexample :
    clockMono 0
      [Event.type "a", Event.press 0 (FetchOutcome.netError "x") 0,
       Event.type "b", Event.press 0 (FetchOutcome.netError "x") 0] = true ∧
    ((run initState
      [Event.type "a", Event.press 0 (FetchOutcome.netError "x") 0,
       Event.type "b", Event.press 0 (FetchOutcome.netError "x") 0]).messages.map
        (fun m => m.id)) = ["1", "0", "1", "0"] ∧
    ¬ ((run initState
      [Event.type "a", Event.press 0 (FetchOutcome.netError "x") 0,
       Event.type "b", Event.press 0 (FetchOutcome.netError "x") 0]).messages.map
        (fun m => m.id)).Nodup :=
  ⟨by decide, by decide, by decide⟩

/-- C9 amended: ids are pairwise distinct in every state reachable over a
trace whose clock advances by at least 2 ticks between a press and the
completion of the previous exchange (the ids are `tSend` and `tDone + 1`,
so a gap of 2 keeps every exchange's pair above all earlier ids). -/
theorem c9_unique_ids_spaced_clock (evs : List Event) (h : clockSpaced 0 evs = true) :
    ((run initState evs).messages.map (fun m => m.id)).Nodup := by
  obtain ⟨hi, l, hmap, hpw, _⟩ :=
    IdsBelow_run evs initState 0 h ⟨[], rfl, List.Pairwise.nil, by simp⟩
  rw [hmap]
  exact List.Nodup.map natToString_injective (hpw.imp fun hab => ne_of_gt hab)

/-- C9 amended witness: a two-exchange trace with a spaced clock. -/
theorem c9_unique_ids_spaced_clock_witness :
    clockSpaced 0
      [Event.type "a", Event.press 0 (FetchOutcome.netError "x") 1,
       Event.type "b",
       Event.press 3 (FetchOutcome.reply true 200 "" (Except.ok (some "hi"))) 4] = true ∧
    ((run initState
      [Event.type "a", Event.press 0 (FetchOutcome.netError "x") 1,
       Event.type "b",
       Event.press 3 (FetchOutcome.reply true 200 "" (Except.ok (some "hi"))) 4]).messages.map
        (fun m => m.id)).Nodup :=
  ⟨by decide, c9_unique_ids_spaced_clock
    [Event.type "a", Event.press 0 (FetchOutcome.netError "x") 1,
     Event.type "b",
     Event.press 3 (FetchOutcome.reply true 200 "" (Except.ok (some "hi"))) 4] (by decide)⟩

end ChatApp
